import Mathlib

/-!
Verification development for the media-generation microservice.

This file gives a shallow embedding, in Lean, of the parts of the service that
govern the job lifecycle (app/services/job_service.py, app/workers/tasks.py,
app/api/v1/endpoints/jobs.py), the provider-client parameter cleaning and mode
selection (app/services/replicate_service.py, app/core/config.py), and the
storage deletion paths (app/services/storage_service.py,
app/api/v1/endpoints/media.py), together with theorems settling the stated
properties of those parts.

Conventions of the embedding:
* timestamps (`datetime.utcnow()`) are abstracted as `Nat` values passed in as
  a `now` argument; UUIDs are abstracted as `Nat`;
* Python JSON dictionaries (`Dict[str, Any]`) are association lists over a
  `Value` type covering the scalar subset the cleaned parameters actually
  use (`None`, `int`, `str`); Python truthiness, `int()` conversion and
  `str()` conversion are modelled explicitly on that type;
* code that can raise returns `PyResult`; ORM "record not found" is `Option`;
* database writes are functions from the fetched record to the stored record;
  fields of `Job` that the modelled code never reads or writes
  (client_ip, user_agent, the request_metadata entries other than
  webhook_url) are omitted, and `request_metadata.get("webhook_url")` is
  modelled as the `webhook_url : Option String` field.
-/

namespace MediaGen

/-- Result of running a piece of Python code: a value, or a raised exception
carrying its message. -/
inductive PyResult (α : Type) where
  | ok (a : α)
  | raised (msg : String)
deriving DecidableEq, Repr

/-- The scalar subset of Python/JSON values that flows through the parameter
dictionaries: `None`, `int` and `str`. -/
inductive Value where
  | VNone
  | VInt (n : Int)
  | VStr (s : String)
deriving DecidableEq, Repr

/-- A Python dict of generation parameters, as an association list. -/
abbrev PyDict := List (String × Value)

/-- First-match association-list lookup, the shallow embedding of
`key in d` / `d[key]` on a Python dict. -/
def dict_get : PyDict → String → Option Value
  | [], _ => none
  | (k, v) :: rest, key => if k = key then some v else dict_get rest key

/-- Python truthiness (`if v:`) on the modelled values: `None` is falsy, an
`int` is truthy iff nonzero, a `str` is truthy iff nonempty. -/
def py_truthy : Value → Bool
  | .VNone => false
  | .VInt n => decide (n ≠ 0)
  | .VStr s => decide (s ≠ "")

/-- Decimal digits of a natural number (auxiliary, fuel-driven). -/
def natDigitsAux : Nat → Nat → List Char
  | 0, _ => []
  | fuel + 1, n =>
    if n < 10 then [Nat.digitChar n]
    else natDigitsAux fuel (n / 10) ++ [Nat.digitChar (n % 10)]

/-- Decimal representation of a natural number. -/
def natRepr (n : Nat) : String := String.mk (natDigitsAux (n + 1) n)

/-- Embedding of Python `str(v)` on the modelled values (decimal form for
ints, identity on strings). -/
def py_str : Value → String
  | .VNone => "None"
  | .VInt n => (if n < 0 then "-" else "") ++ natRepr n.natAbs
  | .VStr s => s

/-- Digit-string accumulator for `pyParseInt`: `none` while no digit has been
seen, and it rejects any non-digit character. -/
def digitsVal : List Char → Option Nat → Option Nat
  | [], acc => acc
  | c :: rest, acc =>
    if '0' ≤ c ∧ c ≤ '9' then
      digitsVal rest (some ((acc.getD 0) * 10 + (c.toNat - '0'.toNat)))
    else none

/-- Parse an optionally signed decimal integer, the embedding of Python
`int(s)` on strings (whitespace trimming and underscore separators of the
CPython parser are not modelled; the strings the service handles are plain
decimals). -/
def pyParseInt (s : String) : Option Int :=
  match s.data with
  | '-' :: rest => (digitsVal rest none).map (fun n => -(n : Int))
  | '+' :: rest => (digitsVal rest none).map (fun n => (n : Int))
  | l => (digitsVal l none).map (fun n => (n : Int))

/-- Embedding of Python `int(v)`: identity on ints, decimal parse on strings
(`ValueError` on failure), `TypeError` on `None`. -/
def py_int : Value → PyResult Int
  | .VInt n => .ok n
  | .VStr s =>
    match pyParseInt s with
    | some n => .ok n
    | none => .raised "ValueError: invalid literal for int()"
  | .VNone => .raised "TypeError: int() argument must not be None"

/-- Embedding of a Python `v > m` comparison against an int literal: defined
on ints, `TypeError` on the other modelled values. -/
def py_gt_int (v : Value) (m : Int) : PyResult Bool :=
  match v with
  | .VInt n => .ok (decide (n > m))
  | _ => .raised "TypeError: not supported between instances"

/-- Embedding of a Python `v >= m` comparison against an int literal. -/
def py_ge_int (v : Value) (m : Int) : PyResult Bool :=
  match v with
  | .VInt n => .ok (decide (n ≥ m))
  | _ => .raised "TypeError: not supported between instances"

/-- Lower-case a string character-wise, the embedding of `s.lower()` on the
ASCII model identifiers the service uses. -/
def lowerStr (s : String) : String := String.mk (s.data.map Char.toLower)

/-- Substring test, the embedding of Python `needle in hay` on strings. -/
def containsSub (needle hay : String) : Bool :=
  hay.data.tails.any (fun t => needle.data.isPrefixOf t)

/-! ## Job model (app/models/job.py) -/

/-- Job status enumeration (app/models/job.py, `JobStatus`). -/
inductive JobStatus where
  | pending
  | processing
  | completed
  | failed
  | cancelled
  | retrying
deriving DecidableEq, Repr

/-- The persistent `Job` record (app/models/job.py), restricted to the fields
the modelled code reads or writes. `request_metadata.get("webhook_url")` is
modelled as the `webhook_url` field. -/
structure Job where
  id : Nat
  prompt : String
  parameters : PyDict
  status : JobStatus
  retry_count : Nat
  max_retries : Nat
  error_message : Option String
  error_details : Option PyDict
  celery_task_id : Option String
  media_id : Option Nat
  webhook_url : Option String
  started_at : Option Nat
  completed_at : Option Nat
deriving DecidableEq, Repr

/-- `Job.is_terminal` (app/models/job.py line 134): status is one of
completed, failed, cancelled. -/
def Job.is_terminal (j : Job) : Bool :=
  j.status = .completed ∨ j.status = .failed ∨ j.status = .cancelled

/-- `Job.can_retry` (app/models/job.py line 139): status is failed and
`retry_count < max_retries`. -/
def Job.can_retry (j : Job) : Bool :=
  j.status = .failed ∧ j.retry_count < j.max_retries

/-! ## Job service (app/services/job_service.py) -/

/-- `JobService.update_job_status` on a fetched job (lines 93-132): returns
the job unchanged if it is terminal; otherwise sets the new status, sets
`started_at` on first entry to processing, sets `completed_at` on entry to a
terminal status, and records the error fields when the new status is
failed. -/
def update_job_status (j : Job) (status : JobStatus) (error_message : Option String)
    (error_details : Option PyDict) (now : Nat) : Job :=
  if j.is_terminal then j
  else
    let j1 : Job := { j with status := status }
    let j2 : Job :=
      if status = .processing ∧ j1.started_at = none then
        { j1 with started_at := some now }
      else if status = .completed ∨ status = .failed ∨ status = .cancelled then
        { j1 with completed_at := some now }
      else j1
    if status = .failed then
      { j2 with error_message := error_message, error_details := error_details }
    else j2

/-- `JobService.mark_job_processing` (lines 134-143). -/
def mark_job_processing (j : Job) (now : Nat) : Job :=
  update_job_status j .processing none none now

/-- `JobService.mark_job_completed` on a fetched job (lines 145-177): sets
status, media_id and completed_at unconditionally — the source performs no
pre-state check on this path. -/
def mark_job_completed (j : Job) (media_id : Nat) (now : Nat) : Job :=
  { j with status := .completed, media_id := some media_id, completed_at := some now }

/-- `JobService.mark_job_failed` (lines 179-200). -/
def mark_job_failed (j : Job) (error_message : String) (error_details : Option PyDict)
    (now : Nat) : Job :=
  update_job_status j .failed (some error_message) error_details now

/-- `JobService.increment_retry_count` on a fetched job (lines 202-228):
increments the count and sets status to retrying, with no pre-state check. -/
def increment_retry_count (j : Job) : Job :=
  { j with retry_count := j.retry_count + 1, status := .retrying }

/-- `JobService.should_retry` (lines 230-243): false when the job is missing,
else `Job.can_retry`. -/
def should_retry : Option Job → Bool
  | none => false
  | some j => j.can_retry

/-- The selection predicate of `JobService.cleanup_old_jobs` (lines 257-260):
`status IN (completed, failed, cancelled) AND completed_at < cutoff`. The SQL
comparison is three-valued: a NULL `completed_at` never satisfies it. -/
def cleanup_deletes (cutoff : Nat) (j : Job) : Bool :=
  j.is_terminal &&
    match j.completed_at with
    | some t => decide (t < cutoff)
    | none => false

/-- `JobService.cleanup_old_jobs` (lines 245-275) over a table of jobs:
returns the table after deletion together with the deleted count. -/
def cleanup_old_jobs (jobs : List Job) (cutoff : Nat) : List Job × Nat :=
  (jobs.filter (fun j => !cleanup_deletes cutoff j),
   (jobs.filter (cleanup_deletes cutoff)).length)

/-- One run of the periodic cleanup against a fixed cutoff: the surviving
table. -/
def cleanup_run (cutoff : Nat) (jobs : List Job) : List Job :=
  (cleanup_old_jobs jobs cutoff).1

/-! ## Jobs endpoints (app/api/v1/endpoints/jobs.py) -/

/-- Outcome of `DELETE /jobs/{id}` (`cancel_job`, lines 231-264). -/
inductive CancelResult where
  | notFound
  | invalidState
  | cancelled (j : Job)
deriving DecidableEq, Repr

/-- `cancel_job` (lines 231-264): 404 if missing, 400 if terminal, otherwise
set status to cancelled and commit. The source sets only `status`; in
particular it does not set `completed_at`. The subsequent Celery revoke is a
best-effort side effect with no influence on the stored record. -/
def cancel_job (j? : Option Job) : CancelResult :=
  match j? with
  | none => .notFound
  | some j =>
    if j.is_terminal then .invalidState
    else .cancelled { j with status := .cancelled }

/-! ## Worker retry path (app/workers/tasks.py) -/

/-- `Settings.celery_retry_backoff_base` default (app/core/config.py line
60). -/
def celery_retry_backoff_base : Nat := 2

/-- `Settings.celery_retry_backoff_max` default (app/core/config.py line
61). -/
def celery_retry_backoff_max : Nat := 600

/-- Whether the failure webhook would fire in `_handle_job_failure`
(tasks.py lines 433-442): the job exists and carries a webhook URL. -/
def has_webhook (j : Job) : Bool := j.webhook_url.isSome

/-- Outcome of the worker's error handler for a failed attempt: either the
task is re-enqueued with a countdown after incrementing the job's retry
count, or the job is marked failed (with the failure webhook fired when
configured). -/
inductive WorkerErrorOutcome where
  | retryTask (countdown : Nat) (updatedJob : Job)
  | failTask (failedJob : Job) (webhookFired : Bool)
deriving DecidableEq, Repr

/-- The `except Exception` branch of `_generate_media_task_async` (tasks.py
lines 116-145) as a function of the current job record and the Celery
attempt counters: it retries only when `should_retry` holds AND
`task.request.retries < task.max_retries`, with backoff
`min(base ** retries, backoff_max)`; otherwise it marks the job failed with
the retry counters as error details and fires the failure webhook when
configured. -/
def handle_task_error (j : Job) (taskRetries taskMaxRetries : Nat) (errMsg : String)
    (now : Nat) : WorkerErrorOutcome :=
  if j.can_retry && decide (taskRetries < taskMaxRetries) then
    .retryTask (min (celery_retry_backoff_base ^ taskRetries) celery_retry_backoff_max)
      (increment_retry_count j)
  else
    .failTask
      (mark_job_failed j errMsg
        (some [("retry_count", .VInt taskRetries), ("max_retries", .VInt taskMaxRetries)]) now)
      (has_webhook j)

/-! ## Provider client (app/services/replicate_service.py, app/core/config.py) -/

/-- `Settings.app_env` (app/core/config.py line 20). -/
inductive AppEnv where
  | development
  | staging
  | production
deriving DecidableEq, Repr

/-- `Settings.is_development` (app/core/config.py lines 141-144): true only
for the development environment. -/
def is_development : AppEnv → Bool
  | .development => true
  | _ => false

/-- `Settings.is_production` (app/core/config.py lines 136-139). -/
def is_production : AppEnv → Bool
  | .production => true
  | _ => false

/-- The three ways `ReplicateService.generate_media` can proceed. -/
inductive GenerateOutcome where
  | usesRealApi
  | usesMock
  | raisesConfigError
deriving DecidableEq, Repr

/-- The mode selection of `ReplicateService.generate_media` (lines 61-83):
a truthy token selects the real API; otherwise the deterministic mock is used
only when `is_development` holds; otherwise a configuration `ValueError` is
raised. -/
def generate_media_route (api_token : String) (env : AppEnv) : GenerateOutcome :=
  if api_token ≠ "" then .usesRealApi
  else if is_development env then .usesMock
  else .raisesConfigError

/-- The body of the `num_inference_steps` handling of the flux branch of
`_clean_parameters_for_model` (lines 136-143), applied to the looked-up
entry: clamp truthy values above 4 to 4, keep truthy values ≥ 1, silently
drop the rest; a truthy non-int raises on the comparison. -/
def flux_steps_val : Option Value → PyResult (Option Value)
  | none => .ok none
  | some v =>
    if py_truthy v then
      match py_gt_int v 4 with
      | .raised m => .raised m
      | .ok true => .ok (some (.VInt 4))
      | .ok false =>
        match py_ge_int v 1 with
        | .raised m => .raised m
        | .ok true => .ok (some v)
        | .ok false => .ok none
    else .ok none

/-- The `num_inference_steps` handling of the flux branch (lines
136-143). -/
def flux_steps (p : PyDict) : PyResult (Option Value) :=
  flux_steps_val (dict_get p "num_inference_steps")

/-- The body of the `seed` handling of the flux branch (lines 146-150): a
non-None value is converted with `int()`, and a conversion error is caught
and the entry skipped. -/
def flux_seed_val : Option Value → Option Value
  | none => none
  | some v =>
    if v = .VNone then none
    else
      match py_int v with
      | .ok n => some (.VInt n)
      | .raised _ => none

/-- The `seed` handling of the flux branch (lines 146-150). -/
def flux_seed (p : PyDict) : Option Value :=
  flux_seed_val (dict_get p "seed")

/-- The body of the `aspect_ratio` handling of the flux branch (lines
153-154): a truthy value is converted with `str()`. -/
def flux_aspect_val : Option Value → Option Value
  | none => none
  | some v => if py_truthy v then some (.VStr (py_str v)) else none

/-- The `aspect_ratio` handling of the flux branch (lines 153-154). -/
def flux_aspect (p : PyDict) : Option Value :=
  flux_aspect_val (dict_get p "aspect_ratio")

/-- The body of the `output_quality` handling of the flux branch (lines
157-158): a truthy value is converted with `int()`; unlike `seed`, the
conversion is NOT wrapped in a try/except, so its errors propagate. -/
def flux_quality_val : Option Value → PyResult (Option Value)
  | none => .ok none
  | some v =>
    if py_truthy v then
      match py_int v with
      | .ok n => .ok (some (.VInt n))
      | .raised m => .raised m
    else .ok none

/-- The `output_quality` handling of the flux branch (lines 157-158). -/
def flux_quality (p : PyDict) : PyResult (Option Value) :=
  flux_quality_val (dict_get p "output_quality")

/-- Helper building the cleaned-dict fragment for one optional entry. -/
def opt_entry (k : String) : Option Value → PyDict
  | none => []
  | some v => [(k, v)]

/-- The dict built by the flux branch: at most the four whitelisted keys, in
insertion order. -/
def cleaned_flux_dict (s sd a ql : Option Value) : PyDict :=
  opt_entry "num_inference_steps" s ++ opt_entry "seed" sd ++
    opt_entry "aspect_ratio" a ++ opt_entry "output_quality" ql

/-- The flux-schnell branch of `_clean_parameters_for_model` (lines
129-167): the cleaned dict holds at most the four whitelisted keys, in
insertion order; the unsupported keys (width, height, guidance_scale,
negative_prompt, scheduler, num_outputs) are only logged and dropped. -/
def clean_flux (p : PyDict) : PyResult PyDict :=
  match flux_steps p with
  | .raised m => .raised m
  | .ok s =>
    match flux_quality p with
    | .raised m => .raised m
    | .ok q => .ok (cleaned_flux_dict s (flux_seed p) (flux_aspect p) q)

/-- The sdxl and default branches of `_clean_parameters_for_model` (lines
169-179): keep every entry whose value is not None, in order. -/
def drop_none (p : PyDict) : PyDict :=
  p.filter (fun kv => decide (kv.2 ≠ Value.VNone))

/-- `ReplicateService._clean_parameters_for_model` (lines 124-182): the flux
branch when the lowered model id contains "flux-schnell", else the sdxl
branch when it contains "sdxl", else the default branch (the latter two have
the same body). -/
def clean_parameters_for_model (model : String) (parameters : PyDict) : PyResult PyDict :=
  if containsSub "flux-schnell" (lowerStr model) then clean_flux parameters
  else if containsSub "sdxl" (lowerStr model) then .ok (drop_none parameters)
  else .ok (drop_none parameters)

/-! ## Storage service (app/services/storage_service.py) and media endpoint
(app/api/v1/endpoints/media.py) -/

/-- Whether a path is absolute (`os.path.isabs` on POSIX). -/
def strIsAbs (p : String) : Bool :=
  match p.data with
  | '/' :: _ => true
  | _ => false

/-- Resolution of a local path (`storage_service.py` lines 341-345): an
absolute path is used as is, a relative one is joined under the storage
root. -/
def resolve_local_path (root p : String) : String :=
  if strIsAbs p then p else root ++ "/" ++ p

/-- `StorageService._delete_from_local` (lines 339-359) over a filesystem
modelled as the list of present paths: unlink and return True when the file
exists, return False when it does not; OS errors are caught and also yield
False (not modelled further). -/
def delete_from_local (fs : List String) (root p : String) : List String × Bool :=
  let full := resolve_local_path root p
  if full ∈ fs then (fs.erase full, true) else (fs, false)

/-- The S3 `DeleteObject` call: it removes the key when present and succeeds
whether or not the key exists (deleting an absent key is not an error in
S3). -/
def s3_delete_object (store : List String) (key : String) : List String :=
  store.erase key

/-- `StorageService._delete_from_s3` (lines 227-258): returns True when
`delete_object` succeeds — regardless of whether an object existed — and
catches a `ClientError` (modelled by the `clientError` flag), logging it and
returning False with the store untouched. -/
def delete_from_s3 (store : List String) (key : String) (clientError : Bool) :
    List String × Bool :=
  if clientError then (store, false)
  else (s3_delete_object store key, true)

/-- What the storage `delete_file` call did, as observed by the endpoint:
it either returned a boolean or raised. -/
inductive StorageDeleteOutcome where
  | returned (removed : Bool)
  | raised (msg : String)
deriving DecidableEq, Repr

/-- The observable outcome of `DELETE /media/{id}`: HTTP status code and
whether the Media row was deleted. -/
structure EndpointResult where
  statusCode : Nat
  recordDeleted : Bool
deriving DecidableEq, Repr

/-- `delete_media` (media.py lines 103-137): 404 when the record is missing;
otherwise storage `delete_file` is awaited and its boolean return value is
ignored — the DB row is deleted and 204 returned; only a raised exception
produces the 500 branch, which keeps the row. -/
def delete_media (mediaFound : Bool) (storage : StorageDeleteOutcome) : EndpointResult :=
  if !mediaFound then ⟨404, false⟩
  else
    match storage with
    | .returned _ => ⟨204, true⟩
    | .raised _ => ⟨500, false⟩

/-- `DELETE /media/{id}` composed with the S3 backend: the endpoint's result
together with the backend store it leaves behind. -/
def delete_media_s3 (store : List String) (mediaFound : Bool) (key : String)
    (clientError : Bool) : List String × EndpointResult :=
  if mediaFound then
    let r := delete_from_s3 store key clientError
    (r.1, delete_media true (.returned r.2))
  else (store, delete_media false (.returned false))

/-! ## Example records used as concrete instances -/

/-- A freshly created pending job (the state `create_job` persists). -/
def pendingJob : Job :=
  { id := 1, prompt := "A sunset", parameters := [], status := .pending, retry_count := 0,
    max_retries := 3, error_message := none, error_details := none, celery_task_id := none,
    media_id := none, webhook_url := none, started_at := none, completed_at := none }

/-- A job cancelled through the DELETE endpoint: status cancelled, no
`completed_at`. -/
def cancelledJob : Job := { pendingJob with status := .cancelled }

/-- A failed job that is still retry-eligible (`retry_count < max_retries`). -/
def failedJob : Job := { pendingJob with status := .failed }

/-- A completed job whose `completed_at` lies in the past. -/
def completedOldJob : Job :=
  { pendingJob with
    status := .completed
    media_id := some 9
    started_at := some 5
    completed_at := some 10 }

/-! ## C1 — mark_completed and non-processing pre-states -/

/-- C1 counterexample: on a cancelled (terminal) job, `mark_job_completed` is
not a no-op — it overwrites the status with completed and sets media_id and
completed_at, contradicting the claim that any non-processing pre-state
returns the record unchanged. -/
theorem c1_counterexample :
    mark_job_completed cancelledJob 5 100 ≠ cancelledJob ∧
    (mark_job_completed cancelledJob 5 100).status = .completed ∧
    cancelledJob.status = .cancelled := by decide

/-- C1 amended: `mark_job_completed` performs no pre-state check at all: for
every fetched job, whatever its status (processing, pending, or a terminal
state such as cancelled), it sets status to completed, media_id to the given
id and completed_at to the current time; whenever the pre-state is not
already completed the stored record changes. -/
theorem c1_theorem (j : Job) (m t : Nat) :
    (mark_job_completed j m t).status = .completed ∧
    (mark_job_completed j m t).media_id = some m ∧
    (mark_job_completed j m t).completed_at = some t ∧
    (j.status ≠ .completed → mark_job_completed j m t ≠ j) := by
  refine ⟨rfl, rfl, rfl, fun hs hc => ?_⟩
  exact hs ((congrArg Job.status hc).symm.trans rfl)

/-- C1 witness: the amended theorem applied to the cancelled job. -/
theorem c1_witness : mark_job_completed cancelledJob 5 100 ≠ cancelledJob :=
  (c1_theorem cancelledJob 5 100).2.2.2 (by decide)

/-! ## C2 — terminal-state monotonicity -/

/-- C2 counterexample: a cancelled job is terminal, yet the subsequent writes
`increment_retry_count` and `mark_job_completed` change its status (to
retrying and completed respectively), refuting terminal-state monotonicity as
claimed over all five write operations. -/
theorem c2_counterexample :
    cancelledJob.is_terminal = true ∧
    (increment_retry_count cancelledJob).status = .retrying ∧
    (mark_job_completed cancelledJob 5 100).status = .completed := by decide

/-- C2 amended: terminal-state monotonicity holds exactly for the writes
routed through `update_job_status` — `update_job_status` itself,
`mark_job_processing` and `mark_job_failed` return a terminal record
unchanged — while `mark_job_completed` and `increment_retry_count` perform no
terminal guard (see the counterexample). -/
theorem c2_theorem (j : Job) (h : j.is_terminal = true) :
    (∀ (s : JobStatus) (em : Option String) (ed : Option PyDict) (t : Nat),
      update_job_status j s em ed t = j) ∧
    (∀ t : Nat, mark_job_processing j t = j) ∧
    (∀ (em : String) (ed : Option PyDict) (t : Nat), mark_job_failed j em ed t = j) := by
  refine ⟨fun s em ed t => ?_, fun t => ?_, fun em ed t => ?_⟩ <;>
    simp [update_job_status, mark_job_processing, mark_job_failed, h]

/-- C2 witness: the amended theorem applied to the cancelled job. -/
theorem c2_witness :
    update_job_status cancelledJob .processing none none 3 = cancelledJob ∧
    mark_job_processing cancelledJob 3 = cancelledJob ∧
    mark_job_failed cancelledJob "boom" none 3 = cancelledJob := by
  obtain ⟨h1, h2, h3⟩ := c2_theorem cancelledJob (by decide)
  exact ⟨h1 .processing none none 3, h2 3, h3 "boom" none 3⟩

/-! ## C4 — completed_at versus terminal status -/

/-- C4 counterexample: cancelling a pending job through the DELETE endpoint
yields a terminal (cancelled) record whose completed_at is still null,
refuting "completed_at is non-null iff the status is terminal". -/
theorem c4_counterexample :
    cancel_job (some pendingJob) = .cancelled { pendingJob with status := .cancelled } ∧
    ({ pendingJob with status := .cancelled } : Job).is_terminal = true ∧
    ({ pendingJob with status := .cancelled } : Job).completed_at = none := by decide

/-- C4 amended: transitions into a terminal status made through
`update_job_status` set completed_at, and `mark_job_completed` always sets
it; but cancellation through DELETE /jobs/id sets only the status and leaves
completed_at exactly as it was (null for a job that never completed), so the
claimed equivalence fails for endpoint-cancelled jobs. -/
theorem c4_theorem :
    (∀ (j : Job) (s : JobStatus) (em : Option String) (ed : Option PyDict) (t : Nat),
      j.is_terminal = false → (s = .completed ∨ s = .failed ∨ s = .cancelled) →
      (update_job_status j s em ed t).completed_at = some t) ∧
    (∀ (j : Job) (m t : Nat), (mark_job_completed j m t).completed_at = some t) ∧
    (∀ j : Job, j.is_terminal = false →
      cancel_job (some j) = .cancelled { j with status := .cancelled } ∧
      ({ j with status := .cancelled } : Job).completed_at = j.completed_at) := by
  refine ⟨fun j s em ed t h hs => ?_, fun j m t => rfl, fun j h => ⟨?_, rfl⟩⟩
  · rcases hs with rfl | rfl | rfl <;> simp [update_job_status, h]
  · simp [cancel_job, h]

/-- C4 witness: the amended theorem applied to a pending job. -/
theorem c4_witness :
    (update_job_status pendingJob .failed (some "boom") none 42).completed_at = some 42 ∧
    (mark_job_completed pendingJob 5 100).completed_at = some 100 ∧
    cancel_job (some pendingJob) = .cancelled { pendingJob with status := .cancelled } :=
  ⟨c4_theorem.1 pendingJob .failed (some "boom") none 42 (by decide) (Or.inr (Or.inl rfl)),
   c4_theorem.2.1 pendingJob 5 100,
   (c4_theorem.2.2 pendingJob (by decide)).1⟩

/-! ## C5 — provider mode selection -/

/-- C5 counterexample: with no credential in the staging environment the
source raises the configuration error (only `is_development` selects the
mock), while the claim promises the mock for every non-production
environment. -/
theorem c5_counterexample :
    generate_media_route "" .staging = .raisesConfigError ∧
    GenerateOutcome.raisesConfigError ≠ .usesMock := by decide

/-- C5 amended: a present credential always selects the real provider; an
absent credential selects the deterministic mock only in the development
environment; in every other environment — staging as well as production — an
absent credential raises the configuration error. -/
theorem c5_theorem :
    (∀ (tok : String) (env : AppEnv), tok ≠ "" → generate_media_route tok env = .usesRealApi) ∧
    generate_media_route "" .development = .usesMock ∧
    (∀ env : AppEnv, env ≠ .development → generate_media_route "" env = .raisesConfigError) := by
  refine ⟨fun tok env h => ?_, by decide, fun env h => ?_⟩
  · simp [generate_media_route, h]
  · cases env with
    | development => exact absurd rfl h
    | staging => decide
    | production => decide

/-- C5 witness: the amended theorem applied to a concrete token and to the
staging environment. -/
theorem c5_witness :
    generate_media_route "r8_token" .production = .usesRealApi ∧
    generate_media_route "" .staging = .raisesConfigError :=
  ⟨c5_theorem.1 "r8_token" .production (by decide), c5_theorem.2.2 .staging (by decide)⟩

/-! ## C6 — DELETE /media/id and backend deletion failure -/

/-- C6 counterexample: when the S3 backend delete fails with a caught
ClientError, the endpoint still deletes the database record and returns 204
while the object remains in the store, contradicting "500 with the error
recorded, and does not report success while the backend object remains". -/
theorem c6_counterexample :
    delete_media_s3 ["generated/a.png"] true "generated/a.png" true
      = (["generated/a.png"], ⟨204, true⟩) ∧
    "generated/a.png" ∈ ["generated/a.png"] := by decide

/-- C6 amended: the endpoint returns 500 (keeping the record) only when the
storage call raises; since both backend implementations catch their own
errors and return a boolean that the endpoint ignores, any returned boolean —
including the false of a caught S3 ClientError — leads to the record being
deleted and 204 reported, even though the backend object then remains. -/
theorem c6_theorem :
    (∀ m : String, delete_media true (.raised m) = ⟨500, false⟩) ∧
    (∀ b : Bool, delete_media true (.returned b) = ⟨204, true⟩) ∧
    (∀ (store : List String) (key : String),
      delete_media_s3 store true key true = (store, ⟨204, true⟩)) :=
  ⟨fun _ => rfl, fun _ => rfl, fun _ _ => rfl⟩

/-! ## C7 — storage delete idempotence -/

/-- C7 counterexample: on the S3 backend the second delete of the same key
returns true, not false — `delete_object` succeeds whether or not the object
exists, and `_delete_from_s3` maps every non-ClientError outcome to true. -/
theorem c7_counterexample :
    delete_from_s3 ["generated/a.png"] "generated/a.png" false = ([], true) ∧
    delete_from_s3 [] "generated/a.png" false = ([], true) := by decide

/-- C7 amended: deleting twice is safe (no exception reaches the caller and
the second call leaves the store unchanged) on both backends, and on the
local backend the boolean reports removal exactly as claimed (true iff the
file existed, false on the second call); on the S3 backend, however, the
return value does not report absence: every call without a ClientError
returns true, including the second. -/
theorem c7_theorem :
    (∀ (fs : List String) (root p : String), fs.Nodup →
      (resolve_local_path root p ∈ fs →
        delete_from_local fs root p = (fs.erase (resolve_local_path root p), true) ∧
        delete_from_local (fs.erase (resolve_local_path root p)) root p
          = (fs.erase (resolve_local_path root p), false)) ∧
      (resolve_local_path root p ∉ fs → delete_from_local fs root p = (fs, false))) ∧
    (∀ (store : List String) (key : String), store.Nodup →
      delete_from_s3 store key false = (store.erase key, true) ∧
      delete_from_s3 (store.erase key) key false = (store.erase key, true)) := by
  constructor
  · intro fs root p hnd
    constructor
    · intro hmem
      constructor
      · simp [delete_from_local, hmem]
      · have hout : resolve_local_path root p ∉ fs.erase (resolve_local_path root p) :=
          hnd.not_mem_erase
        simp [delete_from_local, hout]
    · intro hout
      simp [delete_from_local, hout]
  · intro store key hnd
    refine ⟨rfl, ?_⟩
    have hout : key ∉ store.erase key := hnd.not_mem_erase
    simp [delete_from_s3, s3_delete_object, List.erase_of_not_mem hout]

/-- C7 witness: the amended theorem applied to a one-file local store and a
one-object S3 store. -/
theorem c7_witness :
    (delete_from_local ["/app/media/generated/a.png"] "/app/media" "generated/a.png"
      = ((["/app/media/generated/a.png"]).erase
          (resolve_local_path "/app/media" "generated/a.png"), true)) ∧
    delete_from_s3 (["generated/a.png"].erase "generated/a.png") "generated/a.png" false
      = (["generated/a.png"].erase "generated/a.png", true) := by
  constructor
  · have h := ((c7_theorem.1 ["/app/media/generated/a.png"] "/app/media" "generated/a.png"
      (by decide)).1 (by decide)).1
    simpa using h
  · exact (c7_theorem.2 ["generated/a.png"] "generated/a.png" (by decide)).2

/-! ## C3 — worker retry decision -/

/-- C3 counterexample: with `should_retry` true (failed job, retry budget
left) but the Celery attempt counter already at the task's max_retries, the
worker marks the job failed instead of re-enqueueing, contradicting "only if
should_retry returns false does the worker mark the job failed". -/
theorem c3_counterexample :
    failedJob.can_retry = true ∧
    handle_task_error failedJob 3 3 "provider error" 0
      = .failTask (mark_job_failed failedJob "provider error"
          (some [("retry_count", .VInt 3), ("max_retries", .VInt 3)]) 0) false ∧
    handle_task_error failedJob 3 3 "provider error" 0
      ≠ .retryTask (min (2 ^ 3) 600) (increment_retry_count failedJob) := by decide

/-- C3 amended: the worker re-enqueues — incrementing retry_count and using
backoff min(base to-the attempts, backoff_max) with the defaults base = 2 and
backoff_max = 600 — exactly when `should_retry` is true AND the Celery
attempt counter is still below the task's max_retries; in every other case
(should_retry false, or attempts exhausted) it marks the job failed with the
retry counters as error details and fires the failure webhook when one is
configured. -/
theorem c3_theorem :
    (∀ (j : Job) (r m : Nat) (e : String) (now : Nat),
      j.can_retry = true → r < m →
      handle_task_error j r m e now
        = .retryTask (min (celery_retry_backoff_base ^ r) celery_retry_backoff_max)
            (increment_retry_count j)) ∧
    (∀ (j : Job) (r m : Nat) (e : String) (now : Nat),
      j.can_retry = false ∨ m ≤ r →
      handle_task_error j r m e now
        = .failTask (mark_job_failed j e
            (some [("retry_count", .VInt r), ("max_retries", .VInt m)]) now)
            (has_webhook j)) := by
  constructor
  · intro j r m e now hc hr
    simp [handle_task_error, hc, hr]
  · intro j r m e now h
    rcases h with h | h
    · simp [handle_task_error, h]
    · simp [handle_task_error, Nat.not_lt.mpr h]

/-- C3 witness: the amended theorem applied on both sides — a retry-eligible
failed job on its first Celery attempt, and a processing job (should_retry
false) on its first attempt. -/
theorem c3_witness :
    handle_task_error failedJob 0 3 "provider error" 7
      = .retryTask (min (celery_retry_backoff_base ^ 0) celery_retry_backoff_max)
          (increment_retry_count failedJob) ∧
    handle_task_error pendingJob 0 3 "provider error" 7
      = .failTask (mark_job_failed pendingJob "provider error"
          (some [("retry_count", .VInt 0), ("max_retries", .VInt 3)]) 7)
          (has_webhook pendingJob) :=
  ⟨c3_theorem.1 failedJob 0 3 "provider error" 7 (by decide) (by decide),
   c3_theorem.2 pendingJob 0 3 "provider error" 7 (Or.inl (by decide))⟩

/-! ## C10 — cleanup deletes only jobs with an old non-null completed_at -/

/-- C10: the cleanup predicate selects a job only when its completed_at is
non-null and strictly before the cutoff (the SQL comparison never matches a
NULL completed_at); consequently a job with null completed_at survives any
number of cleanup runs, and cancellation through the DELETE endpoint — which
leaves completed_at untouched — therefore produces records cleanup never
deletes. -/
theorem c10_theorem :
    (∀ (cutoff : Nat) (j : Job), cleanup_deletes cutoff j = true →
      ∃ t, j.completed_at = some t ∧ t < cutoff) ∧
    (∀ j : Job, j.completed_at = none →
      ∀ (k : Nat) (jobs : List Job) (cutoff : Nat), j ∈ jobs →
        j ∈ (cleanup_run cutoff)^[k] jobs) ∧
    (∀ j : Job, j.is_terminal = false →
      cancel_job (some j) = .cancelled { j with status := .cancelled } ∧
      ({ j with status := .cancelled } : Job).completed_at = j.completed_at) := by
  refine ⟨fun cutoff j h => ?_, fun j hnull k => ?_, fun j h => ⟨?_, rfl⟩⟩
  · unfold cleanup_deletes at h
    cases hc : j.completed_at with
    | none => rw [hc] at h; simp at h
    | some t =>
      rw [hc] at h
      refine ⟨t, rfl, ?_⟩
      have := (Bool.and_eq_true _ _).mp h
      exact of_decide_eq_true this.2
  · induction k with
    | zero => intro jobs cutoff hmem; simpa using hmem
    | succ n ih =>
      intro jobs cutoff hmem
      rw [Function.iterate_succ_apply]
      apply ih
      unfold cleanup_run cleanup_old_jobs
      exact List.mem_filter.mpr ⟨hmem, by simp [cleanup_deletes, hnull]⟩
  · simp [cancel_job, h]

/-- C10 witness: the theorem applied to a concrete old completed job and to
the cancelled job with null completed_at inside a two-job table, over three
cleanup runs. -/
theorem c10_witness :
    (∃ t, completedOldJob.completed_at = some t ∧ t < 100) ∧
    cancelledJob ∈ (cleanup_run 100)^[3] [completedOldJob, cancelledJob] :=
  ⟨c10_theorem.1 100 completedOldJob (by decide),
   c10_theorem.2.1 cancelledJob (by decide) 3 [completedOldJob, cancelledJob] 100 (by decide)⟩

/-! ## C9 — num_inference_steps clamping for flux models -/

/-- On a one-entry dict holding an integer `num_inference_steps` at least 1,
the flux steps handling yields exactly the clamped value `min N 4`. -/
lemma flux_steps_singleton (N : Int) (h1 : 1 ≤ N) :
    flux_steps [("num_inference_steps", Value.VInt N)] = .ok (some (.VInt (min N 4))) := by
  have hne : N ≠ 0 := by omega
  by_cases h4 : N > 4
  · simp [flux_steps, flux_steps_val, dict_get, py_truthy, py_gt_int, hne,
      decide_eq_true h4, min_eq_right (show (4 : Int) ≤ N by omega)]
  · simp [flux_steps, flux_steps_val, dict_get, py_truthy, py_gt_int, py_ge_int, hne,
      decide_eq_false h4, decide_eq_true (show N ≥ 1 by omega),
      min_eq_left (show N ≤ (4 : Int) by omega)]

/-- C9: for every model whose lowered identifier contains "flux-schnell" and
every integer N at least 1, cleaning the one-entry parameter map
num_inference_steps = N yields num_inference_steps = min N 4: values above 4
are clamped to 4 and values 1..4 pass through. -/
theorem c9_theorem (model : String) (hm : containsSub "flux-schnell" (lowerStr model) = true)
    (N : Int) (h1 : 1 ≤ N) :
    clean_parameters_for_model model [("num_inference_steps", Value.VInt N)]
      = .ok [("num_inference_steps", Value.VInt (min N 4))] := by
  unfold clean_parameters_for_model
  rw [if_pos hm]
  simp only [clean_flux, flux_steps_singleton N h1,
    show flux_quality [("num_inference_steps", Value.VInt N)] = .ok none from rfl,
    show flux_seed [("num_inference_steps", Value.VInt N)] = none from rfl,
    show flux_aspect [("num_inference_steps", Value.VInt N)] = none from rfl,
    cleaned_flux_dict, opt_entry]
  rfl

/-- C9 witness: the theorem applied to the flux-schnell model id at N = 7,
which is clamped to 4. -/
theorem c9_witness :
    clean_parameters_for_model "black-forest-labs/flux-schnell"
        [("num_inference_steps", Value.VInt 7)]
      = .ok [("num_inference_steps", Value.VInt (min 7 4))] :=
  c9_theorem "black-forest-labs/flux-schnell" (by decide) 7 (by decide)

/-! ## C8 — idempotence of parameter cleaning -/

lemma natDigitsAux_ne_nil (fuel n : Nat) : natDigitsAux (fuel + 1) n ≠ [] := by
  simp only [natDigitsAux]
  split
  · simp
  · exact fun h => by simp at h

lemma natRepr_ne_empty (n : Nat) : natRepr n ≠ "" := by
  intro h
  have hd : (natRepr n).data = [] := by rw [h]
  exact natDigitsAux_ne_nil n n (by simpa [natRepr] using hd)

lemma str_append_ne_empty (a b : String) (h : b ≠ "") : a ++ b ≠ "" := by
  intro hc
  apply h
  have hd : a.data ++ b.data = [] := by
    simpa [String.data_append] using congrArg String.data hc
  have hb : b.data = [] := (List.append_eq_nil.mp hd).2
  cases b with
  | mk d => simp at hb; subst hb; rfl

/-- The `str()` image of a truthy value is itself truthy (a nonempty
string): a truthy string is nonempty and stays itself, and the decimal form
of an integer is never the empty string. -/
lemma py_str_of_truthy (v : Value) (h : py_truthy v = true) : py_str v ≠ "" := by
  cases v with
  | VNone => simp [py_truthy] at h
  | VInt n => exact str_append_ne_empty _ _ (natRepr_ne_empty n.natAbs)
  | VStr s => simpa [py_truthy] using h

/-- Every output of the steps handler is one of its fixpoints: re-cleaning a
cleaned `num_inference_steps` entry reproduces it. -/
lemma flux_steps_val_fix (o s : Option Value) (h : flux_steps_val o = .ok s) :
    flux_steps_val s = .ok s := by
  cases o with
  | none =>
    simp [flux_steps_val] at h
    subst h
    rfl
  | some v =>
    cases v with
    | VNone =>
      simp [flux_steps_val, py_truthy] at h
      subst h
      rfl
    | VStr str =>
      by_cases hs : str = ""
      · subst hs
        simp [flux_steps_val, py_truthy] at h
        subst h
        rfl
      · simp [flux_steps_val, py_truthy, hs, py_gt_int] at h
    | VInt n =>
      by_cases hn : n = 0
      · subst hn
        simp [flux_steps_val, py_truthy] at h
        subst h
        rfl
      · by_cases h4 : n > 4
        · simp [flux_steps_val, py_truthy, hn, py_gt_int, decide_eq_true h4] at h
          subst h
          simp [flux_steps_val, py_truthy, py_gt_int, py_ge_int]
        · by_cases h1 : n ≥ 1
          · simp [flux_steps_val, py_truthy, hn, py_gt_int, py_ge_int,
              decide_eq_false h4, decide_eq_true h1] at h
            subst h
            simp [flux_steps_val, py_truthy, hn, py_gt_int, py_ge_int,
              decide_eq_false h4, decide_eq_true h1]
          · simp [flux_steps_val, py_truthy, hn, py_gt_int, py_ge_int,
              decide_eq_false h4, decide_eq_false h1] at h
            subst h
            rfl

/-- The seed handler is idempotent: its output looked up again cleans to
itself. -/
lemma flux_seed_val_idem (o : Option Value) :
    flux_seed_val (flux_seed_val o) = flux_seed_val o := by
  cases o with
  | none => rfl
  | some v =>
    cases v with
    | VNone => rfl
    | VInt n => simp [flux_seed_val, py_int]
    | VStr str =>
      cases hp : pyParseInt str with
      | none => simp [flux_seed_val, py_int, hp]
      | some n => simp [flux_seed_val, py_int, hp]

/-- The aspect-ratio handler is idempotent: `str()` applied to a truthy
value yields a truthy string that `str()` maps to itself. -/
lemma flux_aspect_val_idem (o : Option Value) :
    flux_aspect_val (flux_aspect_val o) = flux_aspect_val o := by
  cases o with
  | none => rfl
  | some v =>
    by_cases ht : py_truthy v = true
    · have hs : py_str v ≠ "" := py_str_of_truthy v ht
      have h1 : flux_aspect_val (some v) = some (.VStr (py_str v)) := by
        simp [flux_aspect_val, ht]
      rw [h1]
      have ht' : py_truthy (Value.VStr (py_str v)) = true := by
        simp [py_truthy, hs]
      have h2 : py_str (Value.VStr (py_str v)) = py_str v := rfl
      simp [flux_aspect_val, ht', h2]
    · simp [flux_aspect_val, Bool.of_not_eq_true ht]

/-- Outputs of the output-quality handler other than integer zero are its
fixpoints; `int()` of a truthy value can be 0 (for example for the string
"0"), and that single case is the one the second cleaning drops. -/
lemma flux_quality_val_fix (o s : Option Value) (h : flux_quality_val o = .ok s)
    (h0 : s ≠ some (Value.VInt 0)) : flux_quality_val s = .ok s := by
  cases o with
  | none =>
    simp [flux_quality_val] at h
    subst h
    rfl
  | some v =>
    by_cases ht : py_truthy v = true
    · cases hi : py_int v with
      | raised m => simp [flux_quality_val, ht, hi] at h
      | ok n =>
        simp [flux_quality_val, ht, hi] at h
        subst h
        have hn : n ≠ 0 := fun hz => h0 (by rw [hz])
        simp [flux_quality_val, py_truthy, hn, py_int]
    · simp [flux_quality_val, Bool.of_not_eq_true ht] at h
      subst h
      rfl

lemma dict_get_cleaned_steps (s sd a ql : Option Value) :
    dict_get (cleaned_flux_dict s sd a ql) "num_inference_steps" = s := by
  cases s <;> cases sd <;> cases a <;> cases ql <;>
    simp [cleaned_flux_dict, opt_entry, dict_get]

lemma dict_get_cleaned_seed (s sd a ql : Option Value) :
    dict_get (cleaned_flux_dict s sd a ql) "seed" = sd := by
  cases s <;> cases sd <;> cases a <;> cases ql <;>
    simp [cleaned_flux_dict, opt_entry, dict_get]

lemma dict_get_cleaned_aspect (s sd a ql : Option Value) :
    dict_get (cleaned_flux_dict s sd a ql) "aspect_ratio" = a := by
  cases s <;> cases sd <;> cases a <;> cases ql <;>
    simp [cleaned_flux_dict, opt_entry, dict_get]

lemma dict_get_cleaned_quality (s sd a ql : Option Value) :
    dict_get (cleaned_flux_dict s sd a ql) "output_quality" = ql := by
  cases s <;> cases sd <;> cases a <;> cases ql <;>
    simp [cleaned_flux_dict, opt_entry, dict_get]

/-- The sdxl/default branch is idempotent: filtering out the None values
twice is the same as filtering once. -/
lemma drop_none_idem (p : PyDict) : drop_none (drop_none p) = drop_none p := by
  induction p with
  | nil => rfl
  | cons kv rest ih =>
    by_cases hkv : kv.2 = Value.VNone
    · simp only [drop_none, List.filter_cons, hkv] at ih ⊢
      simp [ih]
    · simp only [drop_none, List.filter_cons, hkv] at ih ⊢
      simp [hkv, ih]

/-- C8 counterexample: under the flux model, cleaning
output_quality = "0" (a truthy string whose `int()` is 0) once yields
output_quality = 0, but cleaning that result again drops the now-falsy
entry, so clean(clean(p)) differs from clean(p). -/
theorem c8_counterexample :
    clean_parameters_for_model "black-forest-labs/flux-schnell"
        [("output_quality", Value.VStr "0")]
      = .ok [("output_quality", Value.VInt 0)] ∧
    clean_parameters_for_model "black-forest-labs/flux-schnell"
        [("output_quality", Value.VInt 0)]
      = .ok [] ∧
    (PyResult.ok ([] : PyDict)) ≠ .ok [("output_quality", Value.VInt 0)] := by decide

/-- C8 amended: cleaning is idempotent on every successfully cleaned map
whose cleaned output_quality is not the integer 0 — in particular on all
maps with integer or absent output_quality — and unconditionally for the
sdxl/default model classes (the zero-quality side condition applies only to
the flux branch); the sole failure mode is a flux-model truthy
output_quality whose `int()` image is 0 (such as the string "0"), which the
first cleaning keeps as 0 and the second drops. -/
theorem c8_theorem (model : String) (p q : PyDict)
    (h : clean_parameters_for_model model p = .ok q)
    (h0 : containsSub "flux-schnell" (lowerStr model) = true →
      dict_get q "output_quality" ≠ some (Value.VInt 0)) :
    clean_parameters_for_model model q = .ok q := by
  unfold clean_parameters_for_model at h ⊢
  by_cases hf : containsSub "flux-schnell" (lowerStr model) = true
  · rw [if_pos hf] at h ⊢
    have h0' := h0 hf
    unfold clean_flux at h ⊢
    cases hs : flux_steps p with
    | raised m => rw [hs] at h; simp at h
    | ok s =>
      rw [hs] at h
      cases hq : flux_quality p with
      | raised m => rw [hq] at h; simp at h
      | ok ql =>
        rw [hq] at h
        simp only [] at h
        have hqd : q = cleaned_flux_dict s (flux_seed p) (flux_aspect p) ql := by
          cases h; rfl
        subst hqd
        rw [dict_get_cleaned_quality] at h0'
        have hS : flux_steps (cleaned_flux_dict s (flux_seed p) (flux_aspect p) ql)
            = .ok s := by
          rw [flux_steps, dict_get_cleaned_steps]
          exact flux_steps_val_fix _ s hs
        have hQ : flux_quality (cleaned_flux_dict s (flux_seed p) (flux_aspect p) ql)
            = .ok ql := by
          rw [flux_quality, dict_get_cleaned_quality]
          exact flux_quality_val_fix _ ql hq h0'
        have hSd : flux_seed (cleaned_flux_dict s (flux_seed p) (flux_aspect p) ql)
            = flux_seed p := by
          rw [flux_seed, dict_get_cleaned_seed]
          exact flux_seed_val_idem _
        have hA : flux_aspect (cleaned_flux_dict s (flux_seed p) (flux_aspect p) ql)
            = flux_aspect p := by
          rw [flux_aspect, dict_get_cleaned_aspect]
          exact flux_aspect_val_idem _
        simp [hS, hQ, hSd, hA]
  · rw [if_neg hf] at h ⊢
    rw [ite_self] at h ⊢
    have hqd : q = drop_none p := by cases h; rfl
    subst hqd
    rw [drop_none_idem]

/-- C8 witness: the amended theorem applied under the flux model to a map
with a clamped steps value, a string seed and an unsupported width key, and
under an sdxl model to the map output_quality = 0 — the very input the
flux-only side condition excludes, idempotent here unconditionally. -/
theorem c8_witness :
    clean_parameters_for_model "black-forest-labs/flux-schnell"
        [("num_inference_steps", Value.VInt 4), ("seed", Value.VInt 42)]
      = .ok [("num_inference_steps", Value.VInt 4), ("seed", Value.VInt 42)] ∧
    clean_parameters_for_model "stability-ai/sdxl:8c9b"
        [("output_quality", Value.VInt 0)]
      = .ok [("output_quality", Value.VInt 0)] :=
  ⟨ c8_theorem "black-forest-labs/flux-schnell"
    [("num_inference_steps", Value.VInt 7), ("seed", Value.VStr "42"),
      ("width", Value.VInt 512)]
    [("num_inference_steps", Value.VInt 4), ("seed", Value.VInt 42)]
    (by decide) (by decide),
   c8_theorem "stability-ai/sdxl:8c9b"
    [("output_quality", Value.VInt 0)]
    [("output_quality", Value.VInt 0)]
    (by decide) (by decide)⟩

end MediaGen
